import Mathlib

/-!
# Verification of the healthcheck-service telemetry core

Shallow embedding of `src/main.rs` (request-tracking interceptor,
background collector loops, Prometheus exposition handler, meter-provider
setup) and `examples/module_metrics.rs` (per-module isolated registries),
with theorems settling the behavioural claims about them.

Metric state is modelled explicitly: counters are an association list
keyed by `(instrument name, attribute list)` — mirroring the OpenTelemetry
SDK's guarantee that instrument lookup by name is idempotent, so repeated
`meter.u64_counter(name).build()` calls write into one accumulator —
histogram records are an append-only log, and every
`u64_observable_gauge(..).with_callback(..).build()` call is recorded as a
`GaugeRegistration` holding the constant value the moved closure captured.
-/

/-- An OpenTelemetry `KeyValue` attribute (string key, string value — all
attributes in this program are string-valued after `to_string()`). -/
structure KeyValue where
  key : String
  value : String
deriving DecidableEq, Repr

/-- A series key: instrument name together with its attribute tuple. -/
abbrev Series := String × List KeyValue

/-- Counter state: one accumulator per `(name, attributes)` series. -/
abbrev CounterMap := List (Series × Nat)

/-- `counter.add(v, attrs)` on the accumulator found by name+attributes:
the existing entry is bumped in place, a missing series starts at `v`. -/
def counterAdd : CounterMap → String → List KeyValue → Nat → CounterMap
  | [], name, attrs, v => [((name, attrs), v)]
  | (k, n) :: rest, name, attrs, v =>
    if k = (name, attrs) then (k, n + v) :: rest
    else (k, n) :: counterAdd rest name attrs v

/-- Current value of one series (0 when never recorded). -/
def counterGet : CounterMap → String → List KeyValue → Nat
  | [], _, _ => 0
  | (k, n) :: rest, name, attrs =>
    if k = (name, attrs) then n else counterGet rest name attrs

/-- Sum of a named counter over all of its attribute series. -/
def counterSum : CounterMap → String → Nat
  | [], _ => 0
  | (k, n) :: rest, name => (if k.1 = name then n else 0) + counterSum rest name

/-- One `with_callback` registration of an observable gauge: the moved
closure captures its value by copy, so each registration observes a
constant. -/
structure GaugeRegistration where
  name : String
  value : ℚ
  attrs : List KeyValue
deriving DecidableEq, Repr

/-- Aggregated instrument state of the global meter. -/
structure MetricsState where
  counters : CounterMap
  histRecords : List (Series × ℚ)
  gaugeRegs : List GaugeRegistration
deriving DecidableEq, Repr

/-- Process start: no instrument has recorded anything. -/
def initState : MetricsState := ⟨[], [], []⟩

/-- Effect of `u64_counter(name).build()` + `.add(v, attrs)`. -/
def MetricsState.addCounter (st : MetricsState) (name : String)
    (attrs : List KeyValue) (v : Nat) : MetricsState :=
  { st with counters := counterAdd st.counters name attrs v }

/-- Effect of `f64_histogram(name).build()` + `.record(v, attrs)`. -/
def MetricsState.recordHist (st : MetricsState) (name : String)
    (attrs : List KeyValue) (v : ℚ) : MetricsState :=
  { st with histRecords := ((name, attrs), v) :: st.histRecords }

/-- Effect of `uXX_observable_gauge(name).with_callback(..).build()`. -/
def MetricsState.registerGauge (st : MetricsState) (g : GaugeRegistration) :
    MetricsState :=
  { st with gaugeRegs := g :: st.gaugeRegs }

/-- `http::StatusCode::is_client_error`: 400..=499. -/
def is_client_error (s : Nat) : Bool := decide (400 ≤ s) && decide (s ≤ 499)

/-- `http::StatusCode::is_server_error`: 500..=599. -/
def is_server_error (s : Nat) : Bool := decide (500 ≤ s) && decide (s ≤ 599)

/-- A downstream handler's response (status code as `http::StatusCode`
allows 100..=999; headers and body carried opaquely). -/
structure Response where
  status : Nat
  headers : List (String × String)
  body : String
deriving DecidableEq, Repr

/-- The attribute tuple `[method, path, status]` built in
`track_api_metrics` (status stringified with `to_string()`). -/
def apiAttrs (method path : String) (status : Nat) : List KeyValue :=
  [⟨"method", method⟩, ⟨"path", path⟩, ⟨"status", toString status⟩]

/-- The request-tracking middleware `track_api_metrics`
(src/main.rs:157-186).  The downstream handler's response and the elapsed
duration are inputs; the function records the request counter, the
duration histogram and — behind the client/server-error test — the error
counter, then returns the response it was given. -/
def track_api_metrics (st : MetricsState) (method path : String)
    (response : Response) (duration : ℚ) : MetricsState × Response :=
  let attributes := apiAttrs method path response.status
  let st1 := st.addCounter "api_requests_total" attributes 1
  let st2 := st1.recordHist "api_request_duration_seconds" attributes duration
  let st3 :=
    if is_server_error response.status || is_client_error response.status then
      st2.addCounter "api_errors_total" attributes 1
    else st2
  (st3, response)

/-- One inbound request as the interceptor sees it. -/
structure ApiRequest where
  method : String
  path : String
  response : Response
  duration : ℚ
deriving DecidableEq, Repr

/-- A sequence of requests flowing through the interceptor. -/
def processRequests (st : MetricsState) : List ApiRequest → MetricsState
  | [] => st
  | r :: rs =>
    processRequests (track_api_metrics st r.method r.path r.response r.duration).1 rs

section CounterLemmas

theorem counterGet_add_same (c : CounterMap) (name : String)
    (attrs : List KeyValue) (v : Nat) :
    counterGet (counterAdd c name attrs v) name attrs =
      counterGet c name attrs + v := by
  induction c with
  | nil => simp [counterAdd, counterGet]
  | cons e rest ih =>
    obtain ⟨k, n⟩ := e
    by_cases h : k = (name, attrs)
    · simp [counterAdd, counterGet, h]
    · simp [counterAdd, counterGet, h, ih]

theorem counterGet_add_ne (c : CounterMap) (name' : String)
    (attrs' : List KeyValue) (name : String) (attrs : List KeyValue) (v : Nat)
    (h : (name', attrs') ≠ (name, attrs)) :
    counterGet (counterAdd c name' attrs' v) name attrs =
      counterGet c name attrs := by
  induction c with
  | nil => simp [counterAdd, counterGet, h]
  | cons e rest ih =>
    obtain ⟨k, n⟩ := e
    by_cases hk : k = (name', attrs')
    · subst hk
      simp [counterAdd, counterGet, h]
    · simp [counterAdd, counterGet, hk, ih]

theorem counterSum_add (c : CounterMap) (name : String)
    (attrs : List KeyValue) (v : Nat) :
    counterSum (counterAdd c name attrs v) name = counterSum c name + v := by
  induction c with
  | nil => simp [counterAdd, counterSum]
  | cons e rest ih =>
    obtain ⟨k, n⟩ := e
    by_cases h : k = (name, attrs)
    · subst h
      simp [counterAdd, counterSum]
      omega
    · simp only [counterAdd, h, if_false, counterSum, ih]
      omega

theorem counterSum_add_ne_name (c : CounterMap) (name' : String)
    (attrs : List KeyValue) (name : String) (v : Nat) (h : name' ≠ name) :
    counterSum (counterAdd c name' attrs v) name = counterSum c name := by
  induction c with
  | nil => simp [counterAdd, counterSum, h]
  | cons e rest ih =>
    obtain ⟨k, n⟩ := e
    by_cases hk : k = (name', attrs)
    · subst hk
      simp [counterAdd, counterSum, h]
    · simp [counterAdd, counterSum, hk, ih]

end CounterLemmas

section InterceptorLemmas

theorem track_counters (st : MetricsState) (m p : String) (resp : Response)
    (d : ℚ) :
    (track_api_metrics st m p resp d).1.counters =
      if is_server_error resp.status || is_client_error resp.status then
        counterAdd (counterAdd st.counters "api_requests_total"
            (apiAttrs m p resp.status) 1)
          "api_errors_total" (apiAttrs m p resp.status) 1
      else
        counterAdd st.counters "api_requests_total" (apiAttrs m p resp.status) 1 := by
  by_cases h : is_server_error resp.status || is_client_error resp.status <;>
    simp [track_api_metrics, MetricsState.addCounter, MetricsState.recordHist, h]

theorem track_requests_sum (st : MetricsState) (m p : String) (resp : Response)
    (d : ℚ) :
    counterSum (track_api_metrics st m p resp d).1.counters "api_requests_total" =
      counterSum st.counters "api_requests_total" + 1 := by
  rw [track_counters]
  by_cases h : is_server_error resp.status || is_client_error resp.status
  · rw [if_pos h, counterSum_add_ne_name _ _ _ _ _ (by decide), counterSum_add]
  · rw [if_neg h, counterSum_add]

theorem track_requests_get (st : MetricsState) (m p : String) (resp : Response)
    (d : ℚ) (m0 p0 : String) (s0 : Nat) :
    counterGet (track_api_metrics st m p resp d).1.counters "api_requests_total"
        (apiAttrs m0 p0 s0) =
      counterGet st.counters "api_requests_total" (apiAttrs m0 p0 s0) +
        (if apiAttrs m p resp.status = apiAttrs m0 p0 s0 then 1 else 0) := by
  rw [track_counters]
  have herr : ∀ c : CounterMap,
      counterGet (counterAdd c "api_errors_total" (apiAttrs m p resp.status) 1)
          "api_requests_total" (apiAttrs m0 p0 s0) =
        counterGet c "api_requests_total" (apiAttrs m0 p0 s0) := by
    intro c
    exact counterGet_add_ne _ _ _ _ _ _ (by simp)
  have hreq : counterGet (counterAdd st.counters "api_requests_total"
        (apiAttrs m p resp.status) 1) "api_requests_total" (apiAttrs m0 p0 s0) =
      counterGet st.counters "api_requests_total" (apiAttrs m0 p0 s0) +
        (if apiAttrs m p resp.status = apiAttrs m0 p0 s0 then 1 else 0) := by
    by_cases ha : apiAttrs m p resp.status = apiAttrs m0 p0 s0
    · rw [ha, if_pos rfl, counterGet_add_same]
    · rw [if_neg ha, counterGet_add_ne _ _ _ _ _ _ (by simp [ha])]
      omega
  by_cases h : is_server_error resp.status || is_client_error resp.status
  · rw [if_pos h, herr, hreq]
  · rw [if_neg h, hreq]

theorem processRequests_sum (rs : List ApiRequest) (st : MetricsState) :
    counterSum (processRequests st rs).counters "api_requests_total" =
      counterSum st.counters "api_requests_total" + rs.length := by
  induction rs generalizing st with
  | nil => simp [processRequests]
  | cons r rest ih =>
    rw [processRequests, ih, track_requests_sum]
    simp
    omega

theorem processRequests_get (rs : List ApiRequest) (st : MetricsState)
    (m0 p0 : String) (s0 : Nat) :
    counterGet (processRequests st rs).counters "api_requests_total"
        (apiAttrs m0 p0 s0) =
      counterGet st.counters "api_requests_total" (apiAttrs m0 p0 s0) +
        (rs.filter (fun r =>
          decide (apiAttrs r.method r.path r.response.status = apiAttrs m0 p0 s0))).length := by
  induction rs generalizing st with
  | nil => simp [processRequests]
  | cons r rest ih =>
    rw [processRequests, ih, track_requests_get]
    by_cases h : apiAttrs r.method r.path r.response.status = apiAttrs m0 p0 s0
    · simp [List.filter, h]
      omega
    · simp [List.filter, h]

end InterceptorLemmas

/-- **C1**: for any sequence of N requests through `track_api_metrics`, the
`api_requests_total` counter, partitioned by the `(method, path, status)`
attribute tuple, sums to N — each request adds exactly 1 to its own
tuple's series (the per-tuple value equals the number of requests carrying
that tuple), and lookups keyed by name accumulate into the same
accumulator instead of fragmenting. -/
theorem C1_request_counter_counts (rs : List ApiRequest) (m p : String) (s : Nat) :
    counterSum (processRequests initState rs).counters "api_requests_total" =
      rs.length ∧
    counterGet (processRequests initState rs).counters "api_requests_total"
        (apiAttrs m p s) =
      (rs.filter (fun r =>
        decide (apiAttrs r.method r.path r.response.status = apiAttrs m p s))).length := by
  constructor
  · rw [processRequests_sum]
    simp [initState, counterSum]
  · rw [processRequests_get]
    simp [initState, counterGet]

/-- **C7**: the interceptor returns the downstream handler's response
unchanged (same status, headers and body); the metrics-recording path of
`track_api_metrics` is total — no failure mode reaches the caller. -/
theorem C7_response_unchanged (st : MetricsState) (m p : String)
    (resp : Response) (d : ℚ) :
    (track_api_metrics st m p resp d).2 = resp := rfl

/-- Claim C2 as stated: the error counter for the request's tuple is
incremented by 1 iff the (valid, 100..=999) status is ≥ 400. -/
def C2_claim : Prop :=
  ∀ (st : MetricsState) (m p : String) (resp : Response) (d : ℚ),
    100 ≤ resp.status → resp.status ≤ 999 →
    (counterGet (track_api_metrics st m p resp d).1.counters "api_errors_total"
        (apiAttrs m p resp.status) =
      counterGet st.counters "api_errors_total" (apiAttrs m p resp.status) + 1 ↔
      400 ≤ resp.status)

/-- **C2 counterexample**: at status 600 — a valid `http::StatusCode`, and
≥ 400 — `track_api_metrics` leaves `api_errors_total` unchanged, because
the code tests `is_server_error() || is_client_error()` (400..=599), not
`status >= 400`. -/
theorem C2_counterexample_status600 : ¬ C2_claim := by
  intro h
  have h6 := (h initState "GET" "/api/example" ⟨600, [], ""⟩ 0
      (by norm_num) (by norm_num)).mpr (by norm_num)
  exact absurd h6 (by decide)

/-- **C2 amended**: the error counter for the request's tuple is
incremented by 1 iff the status is a client or server error
(400 ≤ status ≤ 599); otherwise it is unchanged. -/
theorem C2_error_iff_client_or_server_error (st : MetricsState) (m p : String)
    (resp : Response) (d : ℚ) :
    counterGet (track_api_metrics st m p resp d).1.counters "api_errors_total"
        (apiAttrs m p resp.status) =
      counterGet st.counters "api_errors_total" (apiAttrs m p resp.status) +
        (if 400 ≤ resp.status ∧ resp.status ≤ 599 then 1 else 0) := by
  rw [track_counters]
  have hreq : ∀ c : CounterMap,
      counterGet (counterAdd c "api_requests_total" (apiAttrs m p resp.status) 1)
          "api_errors_total" (apiAttrs m p resp.status) =
        counterGet c "api_errors_total" (apiAttrs m p resp.status) := by
    intro c
    exact counterGet_add_ne _ _ _ _ _ _ (by simp)
  by_cases h : 400 ≤ resp.status ∧ resp.status ≤ 599
  · have hb : (is_server_error resp.status || is_client_error resp.status) = true := by
      simp only [is_server_error, is_client_error, Bool.or_eq_true, Bool.and_eq_true,
        decide_eq_true_eq]
      omega
    rw [hb, if_pos rfl, if_pos h, counterGet_add_same, hreq]
  · have hb : (is_server_error resp.status || is_client_error resp.status) = false := by
      simp only [is_server_error, is_client_error]
      simp only [Bool.or_eq_false_iff, Bool.and_eq_false_iff, decide_eq_false_iff_not,
        not_le]
      omega
    rw [hb]
    simp only [Bool.false_eq_true, if_false, if_neg h, Nat.add_zero]
    exact hreq _

/-- One iteration of the `update_service_status` loop body
(src/main.rs:109-128): add 1 to `service.up{status="alive"}`, flip the
`is_ready` flag, then build a fresh `service.ready` observable gauge whose
moved callback observes the post-flip flag as 1/0. -/
def update_service_status_cycle : MetricsState × Bool → MetricsState × Bool
  | (st, is_ready) =>
    let st1 := st.addCounter "service.up" [⟨"status", "alive"⟩] 1
    let is_ready_after := !is_ready
    let st2 := st1.registerGauge
      ⟨"service.ready", if is_ready_after then 1 else 0, [⟨"status", "ready"⟩]⟩
    (st2, is_ready_after)

/-- State after `k` completed cycles of `update_service_status`, starting
from process start (`let mut is_ready = true`, empty metrics). -/
def update_service_status_iters : Nat → MetricsState × Bool
  | 0 => (initState, true)
  | k + 1 => update_service_status_cycle (update_service_status_iters k)

/-- One iteration of the `update_system_metrics` loop body
(src/main.rs:131-154): given the sampled CPU percentage and used memory,
build fresh `system_cpu_usage` (value = percent / 100) and
`system_mem_used` observable gauges, each with a fresh callback. -/
def update_system_metrics_cycle (st : MetricsState) (cpu_percent : ℚ)
    (mem_used : Nat) : MetricsState :=
  let cpu_usage := cpu_percent / 100
  let st1 := st.registerGauge ⟨"system_cpu_usage", cpu_usage, []⟩
  st1.registerGauge ⟨"system_mem_used", (mem_used : ℚ), []⟩

/-- The `update_system_metrics` loop run over a list of per-cycle samples. -/
def update_system_metrics_iters (st : MetricsState) :
    List (ℚ × Nat) → MetricsState
  | [] => st
  | (cpu, mem) :: rest =>
    update_system_metrics_iters (update_system_metrics_cycle st cpu mem) rest

/-- The handler of `GET /health/ready` (src/main.rs:197-210): hardcodes
`is_ready = 1`, registers one more `service.ready` observable gauge whose
callback observes the constant 1 with an empty attribute slice, and
returns the JSON body built from the two `if is_ready == 1` tests. -/
def readiness_probe (st : MetricsState) : MetricsState × (String × String) :=
  let is_ready : Nat := 1
  let st1 := st.registerGauge ⟨"service.ready", (is_ready : ℚ), []⟩
  (st1,
    (if is_ready = 1 then "ok" else "not_ready",
     if is_ready = 1 then "Service is ready" else "Service is not ready"))

section CollectorLemmas

theorem service_status_flag (k : Nat) :
    (update_service_status_iters k).2 = decide (k % 2 = 0) := by
  induction k with
  | zero => simp [update_service_status_iters]
  | succ k ih =>
    rw [update_service_status_iters, update_service_status_cycle.eq_def]
    rcases Nat.mod_two_eq_zero_or_one k with h | h
    · have h1 : (k + 1) % 2 = 1 := by omega
      simp [ih, h, h1]
    · have h1 : (k + 1) % 2 = 0 := by omega
      simp [ih, h, h1]

theorem service_status_regs (k : Nat) :
    (update_service_status_iters (k + 1)).1.gaugeRegs =
      ⟨"service.ready", if (k + 1) % 2 = 0 then 1 else 0, [⟨"status", "ready"⟩]⟩ ::
        (update_service_status_iters k).1.gaugeRegs := by
  rw [update_service_status_iters, update_service_status_cycle.eq_def]
  have h := service_status_flag k
  rcases Nat.mod_two_eq_zero_or_one k with hk | hk
  · have h1 : (k + 1) % 2 = 1 := by omega
    simp [h, hk, h1, MetricsState.addCounter, MetricsState.registerGauge]
  · have h1 : (k + 1) % 2 = 0 := by omega
    simp [h, hk, h1, MetricsState.addCounter, MetricsState.registerGauge]

theorem service_status_counter (k : Nat) :
    counterGet (update_service_status_iters k).1.counters "service.up"
      [⟨"status", "alive"⟩] = k := by
  induction k with
  | zero => simp [update_service_status_iters, initState, counterGet]
  | succ k ih =>
    rw [update_service_status_iters, update_service_status_cycle.eq_def]
    simp only [MetricsState.registerGauge, MetricsState.addCounter]
    rw [counterGet_add_same, ih]

end CollectorLemmas

/-- **C8**: each `update_service_status` cycle adds exactly 1 to
`service.up{status="alive"}` (after k cycles the counter reads k), flips
the in-memory readiness flag (true at start, so the flag after k cycles is
`k % 2 = 0`), and publishes the post-flip value by registering one new
`service.ready` gauge per cycle; the published value alternates between
consecutive cycles. -/
theorem C8_up_counter_and_alternation (k : Nat) :
    counterGet (update_service_status_iters k).1.counters "service.up"
        [⟨"status", "alive"⟩] = k ∧
    (update_service_status_iters k).2 = decide (k % 2 = 0) ∧
    (update_service_status_iters (k + 1)).1.gaugeRegs =
      ⟨"service.ready", if (k + 1) % 2 = 0 then 1 else 0, [⟨"status", "ready"⟩]⟩ ::
        (update_service_status_iters k).1.gaugeRegs ∧
    (update_service_status_iters (k + 2)).1.gaugeRegs.head? ≠
      (update_service_status_iters (k + 1)).1.gaugeRegs.head? := by
  refine ⟨service_status_counter k, service_status_flag k, service_status_regs k, ?_⟩
  rw [service_status_regs (k + 1), service_status_regs k]
  rcases Nat.mod_two_eq_zero_or_one k with h | h
  · have h1 : (k + 1) % 2 = 1 := by omega
    have h2 : (k + 2) % 2 = 0 := by omega
    simp [h1, h2]
  · have h1 : (k + 1) % 2 = 0 := by omega
    have h2 : (k + 2) % 2 = 1 := by omega
    simp [h1, h2]

/-- **C6**: across arbitrarily many `update_service_status` cycles, every
value observed by a `service.ready` gauge registration is exactly 0 or
exactly 1. -/
theorem C6_ready_gauge_zero_or_one (k : Nat) (r : GaugeRegistration)
    (hmem : r ∈ (update_service_status_iters k).1.gaugeRegs)
    (hname : r.name = "service.ready") :
    r.value = 0 ∨ r.value = 1 := by
  induction k with
  | zero =>
    simp [update_service_status_iters, initState] at hmem
  | succ k ih =>
    rw [service_status_regs k] at hmem
    rcases List.mem_cons.mp hmem with h | h
    · subst h
      by_cases hp : (k + 1) % 2 = 0 <;> simp [hp]
    · exact ih h

/-- Witness for C6 at one completed cycle: the single registration the
first cycle adds observes 0. -/
theorem C6_witness :
    (⟨"service.ready", 0, [⟨"status", "ready"⟩]⟩ : GaugeRegistration).value = 0 ∨
    (⟨"service.ready", 0, [⟨"status", "ready"⟩]⟩ : GaugeRegistration).value = 1 :=
  C6_ready_gauge_zero_or_one 1 ⟨"service.ready", 0, [⟨"status", "ready"⟩]⟩
    (by decide) rfl

/-- **C4** (code bug, per spec §9): the loops re-create each observable
gauge and register a fresh callback every cycle — after 2 cycles of
`update_service_status` there are 2 `service.ready` callback
registrations, and after 2 cycles of `update_system_metrics` there are 2
`system_cpu_usage` registrations, not the single startup registration the
claim requires. -/
theorem C4_per_cycle_reregistration :
    ((update_service_status_iters 2).1.gaugeRegs.filter
        (fun g => g.name == "service.ready")).length = 2 ∧
    ((update_system_metrics_iters initState [(50, 1000), (60, 1200)]).gaugeRegs.filter
        (fun g => g.name == "system_cpu_usage")).length = 2 := by
  constructor <;> rfl

/-- **C9**: `readiness_probe` returns the body
`{"status": "ok", "message": "Service is ready"}` unconditionally — it
never consults the collector's alternating flag — and each invocation
registers one additional `service.ready` gauge callback observing the
constant 1 with an empty attribute set, touching no other metric state. -/
theorem C9_readiness_probe_constant (st : MetricsState) :
    (readiness_probe st).2 = ("ok", "Service is ready") ∧
    (readiness_probe st).1.gaugeRegs =
      ⟨"service.ready", 1, []⟩ :: st.gaugeRegs ∧
    (readiness_probe st).1.counters = st.counters ∧
    (readiness_probe st).1.histRecords = st.histRecords := by
  refine ⟨rfl, ?_, rfl, rfl⟩
  simp [readiness_probe, MetricsState.registerGauge]

/-- Outcome of an axum handler invocation: either it panics (an
`.unwrap()` on an `Err`) or it produces a text body. -/
inductive HandlerOutcome where
  | panicked
  | body (text : String)
deriving DecidableEq, Repr

/-- The error kind of `prometheus::Encoder::encode`. -/
inductive EncodingError where
  | encodeFailed
deriving DecidableEq, Repr

/-- The `metrics_handler` for `GET /metrics` (src/main.rs:225-238).
The external encoder's outcome on this invocation (`Err`, or `Ok` with the
bytes it wrote into the buffer) and the external `String::from_utf8`
conversion are inputs.  The code runs
`encoder.encode(&metric_families, &mut buffer).unwrap()` — an encoder
error panics — and only a UTF-8 conversion failure takes the
`unwrap_or_else(|_| "Error encoding metrics".to_string())` branch. -/
def metrics_handler (encodeResult : Except EncodingError (List Nat))
    (from_utf8 : List Nat → Option String) : HandlerOutcome :=
  match encodeResult with
  | .error _ => .panicked
  | .ok buffer => .body ((from_utf8 buffer).getD "Error encoding metrics")

/-- Claim C3 as stated: the handler always produces a text body, and on a
serialization failure that body is the fixed error string. -/
def C3_claim : Prop :=
  ∀ (encodeResult : Except EncodingError (List Nat))
    (from_utf8 : List Nat → Option String),
    (∃ s, metrics_handler encodeResult from_utf8 = .body s) ∧
    (∀ e, encodeResult = .error e →
      metrics_handler encodeResult from_utf8 = .body "Error encoding metrics")

/-- **C3 counterexample**: when the encoder fails, `metrics_handler`
panics on the `.unwrap()` instead of producing any body. -/
theorem C3_counterexample_encode_failure : ¬ C3_claim := by
  intro h
  obtain ⟨s, hs⟩ := (h (.error .encodeFailed) (fun _ => none)).1
  simp [metrics_handler] at hs

/-- **C3 amended**: when encoding succeeds the handler always produces a
text body — the fixed `"Error encoding metrics"` body exactly when the
encoded bytes fail UTF-8 conversion — but when serialization itself fails
the handler panics on `.unwrap()`, aborting the HTTP exchange. -/
theorem C3_degraded_body_on_utf8_failure
    (from_utf8 : List Nat → Option String) (buffer : List Nat)
    (e : EncodingError) :
    (∃ s, metrics_handler (Except.ok buffer) from_utf8 = .body s) ∧
    (from_utf8 buffer = none →
      metrics_handler (Except.ok buffer) from_utf8 =
        .body "Error encoding metrics") ∧
    metrics_handler (Except.error e) from_utf8 = .panicked := by
  refine ⟨⟨(from_utf8 buffer).getD "Error encoding metrics", rfl⟩, ?_, rfl⟩
  intro hnone
  simp [metrics_handler, hnone]

/-- Witness for C3 amended: a concrete invocation whose buffer fails
UTF-8 conversion yields the fixed error body, and a concrete encoder
failure panics. -/
theorem C3_witness :
    (∃ s, metrics_handler (Except.ok [255]) (fun _ => none) = .body s) ∧
    metrics_handler (Except.ok [255]) (fun _ => none) =
      .body "Error encoding metrics" ∧
    metrics_handler (Except.error .encodeFailed) (fun _ => none) = .panicked := by
  have h := C3_degraded_body_on_utf8_failure (fun _ => none) [255] .encodeFailed
  exact ⟨h.1, h.2.1 rfl, h.2.2⟩

/-- The error a meter-exporter builder can return when it rejects the
supplied transport configuration (e.g. a malformed endpoint). -/
inductive ConfigurationError where
  | invalidTransportConfig
deriving DecidableEq, Repr

/-- The provider `setup_meter_provider` builds on success: the Resource
attributes and its two registered readers (periodic OTLP push + pull
Prometheus exporter over the shared registry). -/
structure SdkMeterProvider where
  resource : List KeyValue
  readerCount : Nat
deriving DecidableEq, Repr

/-- Outcome of running `setup_meter_provider`. -/
inductive SetupOutcome where
  | panicked
  | configError (e : ConfigurationError)
  | provider (p : SdkMeterProvider)
deriving DecidableEq, Repr

/-- The Resource built in `setup_meter_provider` (src/main.rs:70-81). -/
def serviceResource : List KeyValue :=
  [⟨"service.name", "healthcheck-service"⟩,
   ⟨"service.version", "0.1.0"⟩,
   ⟨"deployment.environment.name", "development"⟩,
   ⟨"network.local.address", "127.0.0.1"⟩]

/-- `setup_meter_provider` (src/main.rs:68-106).  The outcomes of the two
fallible external builder calls (OTLP exporter, Prometheus exporter) are
inputs; the code calls `.unwrap()` on each, so a rejected transport
configuration panics, and on success the provider carries the Resource
and both readers. -/
def setup_meter_provider
    (otlpBuild promBuild : Except ConfigurationError Unit) : SetupOutcome :=
  match otlpBuild with
  | .error _ => .panicked
  | .ok _ =>
    match promBuild with
    | .error _ => .panicked
    | .ok _ => .provider ⟨serviceResource, 2⟩

/-- Claim C5 as stated: whenever exporter construction rejects the
transport configuration, the operation returns `ConfigurationError` as a
value to its caller. -/
def C5_claim : Prop :=
  ∀ (otlpBuild promBuild : Except ConfigurationError Unit)
    (e : ConfigurationError), otlpBuild = .error e →
    ∃ e2, setup_meter_provider otlpBuild promBuild = .configError e2

/-- **C5 counterexample**: with the OTLP builder rejecting the config,
`setup_meter_provider` panics on `.unwrap()` — no `ConfigurationError`
value is ever returned (the function's Rust type is `SdkMeterProvider`,
not a `Result`). -/
theorem C5_counterexample_panic : ¬ C5_claim := by
  intro h
  obtain ⟨e2, he2⟩ :=
    h (.error .invalidTransportConfig) (.ok ()) .invalidTransportConfig rfl
  simp [setup_meter_provider] at he2

/-- **C5 amended**: when either exporter builder rejects the supplied
transport configuration, `setup_meter_provider` panics (aborting startup,
consistent with §7's fatal semantics) rather than returning an error
value; when both builders succeed it returns the provider carrying the
Resource and its two readers. -/
theorem C5_panics_on_config_rejection
    (otlpBuild promBuild : Except ConfigurationError Unit) :
    ((∃ e, otlpBuild = .error e) ∨ (∃ e, promBuild = .error e) →
      setup_meter_provider otlpBuild promBuild = .panicked) ∧
    (otlpBuild = .ok () → promBuild = .ok () →
      setup_meter_provider otlpBuild promBuild =
        .provider ⟨serviceResource, 2⟩) := by
  constructor
  · rintro (⟨e, rfl⟩ | ⟨e, rfl⟩)
    · rfl
    · cases otlpBuild <;> rfl
  · rintro rfl rfl
    rfl

/-- Witness for C5 amended: a concrete rejected OTLP config panics, and a
concrete all-ok run returns the provider. -/
theorem C5_witness :
    setup_meter_provider (Except.error .invalidTransportConfig) (Except.ok ()) =
      .panicked ∧
    setup_meter_provider (Except.ok ()) (Except.ok ()) =
      .provider ⟨serviceResource, 2⟩ :=
  ⟨(C5_panics_on_config_rejection (Except.error .invalidTransportConfig)
      (Except.ok ())).1 (Or.inl ⟨.invalidTransportConfig, rfl⟩),
   (C5_panics_on_config_rejection (Except.ok ()) (Except.ok ())).2 rfl rfl⟩

/-- A prometheus `Registry`'s accumulated counter families (the state the
provider's pull exporter writes into and `gather()` reads). -/
abbrev Registry := CounterMap

/-- The world of `ModuleMetrics` instances from
`examples/module_metrics.rs:11-37`: each instance owns its own
`Registry::new()` core (an `Arc`-backed registry distinct per `new`
call), addressed here by an allocation id. -/
structure MMWorld where
  regs : Nat → Registry
  nextId : Nat

/-- `ModuleMetrics::new` (module_metrics.rs:12-22): allocates a fresh
empty registry and a provider whose Prometheus exporter is bound to that
registry alone; returns the new world and the instance's id. -/
def ModuleMetrics_new (w : MMWorld) : MMWorld × Nat :=
  (⟨fun i => if i = w.nextId then [] else w.regs i, w.nextId + 1⟩, w.nextId)

/-- `ModuleMetrics::increment_counter` (module_metrics.rs:24-28): records
`tasks_total{module="background"} += 1` through the instance's own
provider, which lands in that instance's registry only. -/
def increment_counter (w : MMWorld) (id : Nat) : MMWorld :=
  ⟨fun i =>
    if i = id then
      counterAdd (w.regs i) "tasks_total" [⟨"module", "background"⟩] 1
    else w.regs i,
   w.nextId⟩

/-- Text exposition of one registry's families, as `TextEncoder` would
serialize them. -/
def encodeRegistry : Registry → String
  | [] => ""
  | (k, n) :: rest => k.1 ++ " " ++ toString n ++ "\n" ++ encodeRegistry rest

/-- `ModuleMetrics::gather` (module_metrics.rs:30-36): encodes the
instance's own registry. -/
def gather (w : MMWorld) (id : Nat) : String := encodeRegistry (w.regs id)

/-- **C10**: two `ModuleMetrics` instances created by successive
`ModuleMetrics::new` calls are fully isolated — incrementing through
either instance leaves the other instance's `gather()` output unchanged. -/
theorem C10_module_isolation (w0 : MMWorld) :
    gather (increment_counter (ModuleMetrics_new (ModuleMetrics_new w0).1).1
        (ModuleMetrics_new w0).2)
      (ModuleMetrics_new (ModuleMetrics_new w0).1).2 =
    gather (ModuleMetrics_new (ModuleMetrics_new w0).1).1
      (ModuleMetrics_new (ModuleMetrics_new w0).1).2 ∧
    gather (increment_counter (ModuleMetrics_new (ModuleMetrics_new w0).1).1
        (ModuleMetrics_new (ModuleMetrics_new w0).1).2)
      (ModuleMetrics_new w0).2 =
    gather (ModuleMetrics_new (ModuleMetrics_new w0).1).1
      (ModuleMetrics_new w0).2 := by
  constructor <;>
    simp [ModuleMetrics_new, increment_counter, gather]
